import Mathlib

/-!
Shallow embedding of the Discord Queue Bot command layer
(src/code/queue_bot.py) together with the rotating queue engine it drives.
The engine (game_queue.py: Player, GameQueue) is imported by the command
layer but is not part of the sources, so each engine operation is modelled
from the spec; every such definition carries a doc comment saying so.
Python machine integers are modelled as Int, Python dicts as
insertion-ordered association lists, and a raised KeyError on a dict access
as the value none of an Option-returning command.  Response strings follow
the source text with quote characters elided, and Discord role mentions are
rendered as the plain game name, since both are presentation only.
-/

set_option autoImplicit false

namespace QueueBotModel

/-- ASCII lowercasing of a string, written over the character data so that
it reduces by kernel computation; it models Python str.lower on the ASCII
names the bot handles. -/
def lowerStr (s : String) : String := String.mk (s.data.map Char.toLower)

/-- Modelled from the spec: the Participant record of the missing
game_queue.py, carrying a display name and the transient delaying flag. -/
structure Player where
  name : String
  delaying : Bool
deriving Repr, DecidableEq

/-- Modelled from the spec: the Rotating Queue of the missing game_queue.py.
The fields are the game identifier, the cohort size (player_cutoff), the
ordered member sequence (players), the delaying holding set (delayed) and
the stack of member snapshots supporting undo (history). -/
structure GameQueue where
  game_name : String
  player_cutoff : Int
  players : List Player
  delayed : List Player
  history : List (List Player)
deriving Repr, DecidableEq

/-- Modelled from the spec: the GameQueue constructor, optionally
pre-populated with a member list when participants are transferred from
another queue; a fresh instance starts with empty holding set and empty
history. -/
def GameQueue.new (game_name : String) (player_cutoff : Int)
    (players : List Player) : GameQueue :=
  GameQueue.mk game_name player_cutoff players [] []

/-- Join a list of names with comma separators, structurally recursive so
it reduces by kernel computation. -/
def joinSep : List String → String
  | [] => ""
  | [x] => x
  | x :: y :: xs => x ++ ", " ++ joinSep (y :: xs)

/-- Modelled from the spec: the cohort grouping report returned by the
mutating and reporting engine operations, partitioning the member sequence
into current, next and waiting cohorts of player_cutoff members each. -/
def GameQueue.report (q : GameQueue) : String :=
  let c := q.player_cutoff.toNat
  let ns := q.players.map Player.name
  "current: " ++ joinSep (ns.take c) ++
  " | next: " ++ joinSep ((ns.drop c).take c) ++
  " | waiting: " ++ joinSep (ns.drop (c + c))

/-- Modelled from the spec: case-insensitive participant lookup across the
member sequence first and then the delaying holding set, without mutation. -/
def GameQueue.find_player (q : GameQueue) (name : String) : Option Player :=
  match q.players.find? (fun p => lowerStr p.name == lowerStr name) with
  | some p => some p
  | none => q.delayed.find? (fun p => lowerStr p.name == lowerStr name)

/-- Modelled from the spec: add a participant; an already present name (case
insensitive) yields an already-present indication with no mutation,
otherwise the pre-state is snapshotted and the new member appended. -/
def GameQueue.add_player (q : GameQueue) (p : Player) : GameQueue × String :=
  match q.find_player p.name with
  | some _ => (q, p.name ++ " is already in the queue.")
  | none =>
    let q2 : GameQueue :=
      { q with history := q.players :: q.history, players := q.players ++ [p] }
    (q2, q2.report)

/-- Modelled from the spec: remove a located participant from the member
sequence preserving the relative order of the rest, after snapshotting. -/
def GameQueue.delete_player (q : GameQueue) (p : Player) : GameQueue × String :=
  let q2 : GameQueue :=
    { q with history := q.players :: q.history,
             players := q.players.filter (fun m => lowerStr m.name ≠ lowerStr p.name) }
  (q2, q2.report)

/-- Modelled from the spec: rotate the queue, snapshotting and then removing
the entire current cohort, the first min(player_cutoff, length) members.
The command layer checks for a non-empty queue before invoking this. -/
def GameQueue.update_queue (q : GameQueue) : GameQueue × String :=
  let q2 : GameQueue :=
    { q with history := q.players :: q.history,
             players := q.players.drop q.player_cutoff.toNat }
  (q2, q2.report)

/-- Modelled from the spec: set the delaying flag of a located participant,
move it from the member sequence to the holding set, after snapshotting. -/
def GameQueue.delay_player (q : GameQueue) (p : Player) : GameQueue × String :=
  let q2 : GameQueue :=
    { q with history := q.players :: q.history,
             players := q.players.filter (fun m => lowerStr m.name ≠ lowerStr p.name),
             delayed := q.delayed ++ [Player.mk p.name true] }
  (q2, q2.report)

/-- Modelled from the spec: clear the delaying flag of a located
participant, remove it from the holding set and append it to the back of
the member sequence, after snapshotting. -/
def GameQueue.rejoin_player (q : GameQueue) (p : Player) : GameQueue × String :=
  let q2 : GameQueue :=
    { q with history := q.players :: q.history,
             delayed := q.delayed.filter (fun m => lowerStr m.name ≠ lowerStr p.name),
             players := q.players ++ [Player.mk p.name false] }
  (q2, q2.report)

/-- Modelled from the spec: pop the most recent snapshot and replace the
member sequence with it; with no snapshot a no-history indication is
returned and nothing changes. -/
def GameQueue.undo_command (q : GameQueue) : GameQueue × String :=
  match q.history with
  | [] => (q, "There is no previous command to undo.")
  | h :: t =>
    let q2 : GameQueue := { q with players := h, history := t }
    (q2, q2.report)

/-- Modelled from the spec: clear the member sequence and the delaying
holding set; empty pushes a snapshot like any other mutating operation and
does not clear the history. -/
def GameQueue.empty_queue (q : GameQueue) : GameQueue :=
  { q with history := q.players :: q.history, players := [], delayed := [] }

/-- Modelled from the spec: the status report of the member ordering. -/
def GameQueue.print_players (q : GameQueue) : String := q.report

/-- Modelled from the spec: the wait estimate for a participant, the number
of complete rotations before it enters the current cohort, computed as the
zero-based member index divided by the cohort size; an absent participant
gives a not-found indication.  The command layer passes the possibly absent
result of find_player straight through. -/
def GameQueue.print_player_wait (q : GameQueue) (p : Option Player) : String :=
  match p with
  | none => "Player not found in the queue."
  | some p =>
    match q.players.findIdx? (fun m => lowerStr m.name == lowerStr p.name) with
    | none => "Player not found in the queue."
    | some i =>
      if i < q.player_cutoff.toNat then "You are in the current game."
      else "Games to wait: " ++ toString (i / q.player_cutoff.toNat)

/-- Lookup in an insertion-ordered association list, as a Python dict read. -/
def lookupA {α : Type} : List (String × α) → String → Option α
  | [], _ => none
  | (k2, v) :: t, k => if k2 = k then some v else lookupA t k

/-- Write to an insertion-ordered association list, as a Python dict
assignment: replace in place when the key exists, append otherwise. -/
def insertA {α : Type} : List (String × α) → String → α → List (String × α)
  | [], k, v => [(k, v)]
  | (k2, v2) :: t, k, v =>
    if k2 = k then (k, v) :: t else (k2, v2) :: insertA t k v

/-- The bot state: the queue registry (self.queues) and the persistent
cohort-size store (self.game_dict, mirrored to db/game_dict.json). -/
structure BotState where
  queues : List (String × GameQueue)
  game_dict : List (String × Int)
deriving Repr, DecidableEq

namespace QueueBot

def NO_GAME_PARAM_RESPONSE : String :=
  "Game to interact with cannot be identified. Please enter it after the command."

def NO_PLAYERCUTOFF_PARAM_RESPONSE : String :=
  "No player count data exists for that game. Please enter it after the game name in the command."

def NO_QUEUE_RESPONSE : String :=
  "There is no queue. Type !queue [game_name] [player_number] to create one."

/-- Embeds QueueBot.__update_player_cutoff: record the new cutoff for the
game in the game_dict (the JSON dump is the same mapping persisted). -/
def update_player_cutoff (d : List (String × Int)) (game_name : String)
    (player_cutoff : Int) : List (String × Int) :=
  insertA d game_name player_cutoff

/-- Embeds QueueBot.__check_and_lower_game_name_param: a supplied game name
is lowered and returned; an omitted one is inferred from a singleton
registry, or from the unique queue containing the player, else empty. -/
def check_and_lower_game_name_param (queues : List (String × GameQueue))
    (game_name : String) (player_name : String) : String :=
  if game_name ≠ "" then lowerStr game_name
  else
    match queues with
    | [(k, _)] => lowerStr k
    | _ =>
      match (queues.filter (fun kv => (kv.2.find_player player_name).isSome)).map Prod.fst with
      | [k] => k
      | _ => ""

/-- Embeds QueueBot.__check_player_cutoff_param.  Returns the resolved
cutoff, the resulting game_dict, and whether __update_player_cutoff was
called (the store written).  A supplied cutoff of 0 is falsy in the source,
meaning not supplied. -/
def check_player_cutoff_param (d : List (String × Int)) (game_name : String)
    (player_cutoff : Int) : Int × List (String × Int) × Bool :=
  match lookupA d game_name with
  | some db_player_cutoff =>
    let pc := if player_cutoff = 0 then db_player_cutoff else player_cutoff
    if pc ≠ db_player_cutoff then
      (pc, update_player_cutoff d game_name pc, true)
    else (pc, d, false)
  | none => (player_cutoff, update_player_cutoff d game_name player_cutoff, true)

/-- Embeds QueueBot.__check_if_queue_exists_and_nonempty. -/
def check_if_queue_exists_and_nonempty (queues : List (String × GameQueue))
    (game_name : String) : Bool :=
  match lookupA queues game_name with
  | none => false
  | some q => !q.players.isEmpty

/-- Embeds QueueBot.start_queue (the queue, alias join, command).  Note the
source resolves the game name without passing the author as player_name. -/
def start_queue (s : BotState) (author : String) (game_name : String)
    (player_cutoff : Int) : Option (String × BotState) :=
  let lg := check_and_lower_game_name_param s.queues game_name ""
  if lg = "" then some (NO_GAME_PARAM_RESPONSE, s)
  else if check_if_queue_exists_and_nonempty s.queues lg then
    match lookupA s.queues lg with
    | none => none
    | some q =>
      let r := q.add_player (Player.mk author false)
      some (r.2, { s with queues := insertA s.queues lg r.1 })
  else
    let r := check_player_cutoff_param s.game_dict lg player_cutoff
    let s2 : BotState := { s with game_dict := r.2.1 }
    if r.1 = 0 then some (NO_PLAYERCUTOFF_PARAM_RESPONSE, s2)
    else
      let r2 := (GameQueue.new lg r.1 []).add_player (Player.mk author false)
      some ("Queue has been created for " ++ lg ++ ".\n" ++ r2.2,
            { s2 with queues := insertA s2.queues lg r2.1 })

/-- Embeds QueueBot.leave_queue (the leave command).  The source reads
self.queues[lower_game_name] with no existence check, so a missing key is
a KeyError, modelled as none. -/
def leave_queue (s : BotState) (author : String) (game_name : String) :
    Option (String × BotState) :=
  let lg := check_and_lower_game_name_param s.queues game_name author
  if lg = "" then some (NO_GAME_PARAM_RESPONSE, s)
  else
    match lookupA s.queues lg with
    | none => none
    | some q =>
      match q.find_player author with
      | some p =>
        let r := q.delete_player p
        some (r.2, { s with queues := insertA s.queues lg r.1 })
      | none =>
        some (author ++ " is not a member of the queue for " ++ lg ++
              ". Please check and try again.", s)

/-- Embeds QueueBot.next_game_for_queue (the next, alias rotate, command). -/
def next_game_for_queue (s : BotState) (author : String) (game_name : String) :
    Option (String × BotState) :=
  let lg := check_and_lower_game_name_param s.queues game_name author
  if lg = "" then some (NO_GAME_PARAM_RESPONSE, s)
  else if !check_if_queue_exists_and_nonempty s.queues lg then
    some (NO_QUEUE_RESPONSE, s)
  else
    match lookupA s.queues lg with
    | none => none
    | some q =>
      let r := q.update_queue
      some (r.2, { s with queues := insertA s.queues lg r.1 })

/-- Embeds QueueBot.status_queue (the status command), a pure read. -/
def status_queue (s : BotState) (author : String) (game_name : String) :
    Option (String × BotState) :=
  let lg := check_and_lower_game_name_param s.queues game_name author
  if lg = "" then some (NO_GAME_PARAM_RESPONSE, s)
  else if !check_if_queue_exists_and_nonempty s.queues lg then
    some (NO_QUEUE_RESPONSE, s)
  else
    match lookupA s.queues lg with
    | none => none
    | some q => some (q.print_players, s)

/-- Embeds QueueBot.wait_queue (the wait command), a pure read. -/
def wait_queue (s : BotState) (author : String) (game_name : String) :
    Option (String × BotState) :=
  let lg := check_and_lower_game_name_param s.queues game_name author
  if lg = "" then some (NO_GAME_PARAM_RESPONSE, s)
  else if !check_if_queue_exists_and_nonempty s.queues lg then
    some (NO_QUEUE_RESPONSE, s)
  else
    match lookupA s.queues lg with
    | none => none
    | some q => some (q.print_player_wait (q.find_player author), s)

/-- Embeds QueueBot.add_player (the add command).  The extra prompt the
source sends when the player argument is empty is presentation only and the
command still computes the response below, which is what we model. -/
def add_player (s : BotState) (author : String) (player_to_add : String)
    (game_name : String) : Option (String × BotState) :=
  let lg := check_and_lower_game_name_param s.queues game_name author
  if lg = "" then some (NO_GAME_PARAM_RESPONSE, s)
  else if !check_if_queue_exists_and_nonempty s.queues lg then
    some (NO_QUEUE_RESPONSE, s)
  else
    match lookupA s.queues lg with
    | none => none
    | some q =>
      if (q.find_player player_to_add).isSome then
        some (player_to_add ++ " is already a member of the queue for " ++ lg ++ ".", s)
      else
        let r := q.add_player (Player.mk player_to_add false)
        some (r.2, { s with queues := insertA s.queues lg r.1 })

/-- Embeds QueueBot.kick_player (the kick, alias remove, command).  As with
add_player, the prompt for an empty player argument is not modelled. -/
def kick_player (s : BotState) (author : String) (player_to_remove : String)
    (game_name : String) : Option (String × BotState) :=
  let lg := check_and_lower_game_name_param s.queues game_name author
  if lg = "" then some (NO_GAME_PARAM_RESPONSE, s)
  else if !check_if_queue_exists_and_nonempty s.queues lg then
    some (NO_QUEUE_RESPONSE, s)
  else
    match lookupA s.queues lg with
    | none => none
    | some q =>
      match q.find_player player_to_remove with
      | some p =>
        let r := q.delete_player p
        some (r.2, { s with queues := insertA s.queues lg r.1 })
      | none =>
        some (player_to_remove ++ " is not a member of the queue for " ++ lg ++ ".", s)

/-- Embeds QueueBot.delay_player (the delay command); an omitted player
argument defaults to the author. -/
def delay_player (s : BotState) (author : String) (game_name : String)
    (player_to_delay : String) : Option (String × BotState) :=
  let pd := if player_to_delay = "" then author else player_to_delay
  let lg := check_and_lower_game_name_param s.queues game_name pd
  if lg = "" then some (NO_GAME_PARAM_RESPONSE, s)
  else if !check_if_queue_exists_and_nonempty s.queues lg then
    some (NO_QUEUE_RESPONSE, s)
  else
    match lookupA s.queues lg with
    | none => none
    | some q =>
      match q.find_player pd with
      | some p =>
        let r := GameQueue.delay_player q p
        some (pd ++ " is now delaying their games. Type !rejoin to stop.\n\n" ++ r.2,
              { s with queues := insertA s.queues lg r.1 })
      | none =>
        some (pd ++ " is not a player in the queue for " ++ lg ++ ".", s)

/-- Embeds QueueBot.rejoin_player (the rejoin command).  The dead
reassignment of game_name in the source is omitted. -/
def rejoin_player (s : BotState) (author : String) (game_name : String) :
    Option (String × BotState) :=
  let lg := check_and_lower_game_name_param s.queues game_name author
  if lg = "" then some (NO_GAME_PARAM_RESPONSE, s)
  else if !check_if_queue_exists_and_nonempty s.queues lg then
    some (NO_QUEUE_RESPONSE, s)
  else
    match lookupA s.queues lg with
    | none => none
    | some q =>
      match q.find_player author with
      | some p =>
        if p.delaying then
          let r := GameQueue.rejoin_player q p
          some (author ++ " is no longer delaying their games.\n\n" ++ r.2,
                { s with queues := insertA s.queues lg r.1 })
        else some (author ++ " was not delaying games.", s)
      | none =>
        some (author ++ " is not a player in the queue for " ++ lg ++ ".", s)

/-- Embeds QueueBot.undo_queue (the undo command). -/
def undo_queue (s : BotState) (author : String) (game_name : String) :
    Option (String × BotState) :=
  let lg := check_and_lower_game_name_param s.queues game_name author
  if lg = "" then some (NO_GAME_PARAM_RESPONSE, s)
  else if !check_if_queue_exists_and_nonempty s.queues lg then
    some (NO_QUEUE_RESPONSE, s)
  else
    match lookupA s.queues lg with
    | none => none
    | some q =>
      let r := q.undo_command
      some ("Previous command has been undone. The status of the queue now is:\n\n" ++ r.2,
            { s with queues := insertA s.queues lg r.1 })

/-- Embeds QueueBot.switch_queue (the game, alias switch, command).  The
current game is always inferred (the source passes an empty game name), and
the target name is lowered directly. -/
def switch_queue (s : BotState) (author : String) (game_name : String)
    (player_cutoff : Int) : Option (String × BotState) :=
  let current := check_and_lower_game_name_param s.queues "" author
  let lg := lowerStr game_name
  if lg = "" then some (NO_GAME_PARAM_RESPONSE, s)
  else if current = "" then
    some ("You do not appear to currently be in a queue. Please join one before switching games.", s)
  else
    let r := check_player_cutoff_param s.game_dict lg player_cutoff
    let s2 : BotState := { s with game_dict := r.2.1 }
    if r.1 = 0 then some (NO_PLAYERCUTOFF_PARAM_RESPONSE, s2)
    else
      match lookupA s2.queues current with
      | none => none
      | some qA =>
        let s3 : BotState := { s2 with queues := insertA s2.queues current qA.empty_queue }
        some ("Queue has been created for " ++ lg ++ ".\n",
              { s3 with queues := insertA s3.queues lg (GameQueue.new lg r.1 qA.players) })

/-- Embeds QueueBot.end_queue (the end, alias stop, command).  The source
reads self.queues[lower_game_name] with no existence check, so a missing
key is a KeyError, modelled as none. -/
def end_queue (s : BotState) (author : String) (game_name : String) :
    Option (String × BotState) :=
  let lg := check_and_lower_game_name_param s.queues game_name author
  if lg = "" then some (NO_GAME_PARAM_RESPONSE, s)
  else
    match lookupA s.queues lg with
    | none => none
    | some q =>
      some ("The queue has been ended. Type !queue [game_name] to start a new queue.",
            { s with queues := insertA s.queues lg q.empty_queue })

end QueueBot

/-- One user command, with its game-facing arguments; the author comes from
the message context. -/
inductive Cmd where
  | start (game_name : String) (player_cutoff : Int)
  | leave (game_name : String)
  | next (game_name : String)
  | status (game_name : String)
  | wait (game_name : String)
  | add (player_to_add : String) (game_name : String)
  | kick (player_to_remove : String) (game_name : String)
  | delay (game_name : String) (player_to_delay : String)
  | rejoin (game_name : String)
  | undo (game_name : String)
  | switch (game_name : String) (player_cutoff : Int)
  | stop (game_name : String)

/-- Dispatch of one command against the bot state, as add_commands_to_bot
wires the hybrid commands to the QueueBot methods. -/
def runCmd (s : BotState) (author : String) : Cmd → Option (String × BotState)
  | Cmd.start g c => QueueBot.start_queue s author g c
  | Cmd.leave g => QueueBot.leave_queue s author g
  | Cmd.next g => QueueBot.next_game_for_queue s author g
  | Cmd.status g => QueueBot.status_queue s author g
  | Cmd.wait g => QueueBot.wait_queue s author g
  | Cmd.add p g => QueueBot.add_player s author p g
  | Cmd.kick p g => QueueBot.kick_player s author p g
  | Cmd.delay g p => QueueBot.delay_player s author g p
  | Cmd.rejoin g => QueueBot.rejoin_player s author g
  | Cmd.undo g => QueueBot.undo_queue s author g
  | Cmd.switch g c => QueueBot.switch_queue s author g c
  | Cmd.stop g => QueueBot.end_queue s author g

/-- Every registry key is the lowercase image of some game name. -/
def LoweredKeys (queues : List (String × GameQueue)) : Prop :=
  ∀ kv ∈ queues, ∃ t : String, kv.1 = lowerStr t

theorem lookupA_insertA_self {α : Type} (l : List (String × α)) (k : String) (v : α) :
    lookupA (insertA l k v) k = some v := by
  induction l with
  | nil => simp [insertA, lookupA]
  | cons kv t ih =>
    obtain ⟨k2, v2⟩ := kv
    by_cases h : k2 = k
    · simp [insertA, h, lookupA]
    · simp [insertA, h, lookupA, ih]

theorem lookupA_insertA_ne {α : Type} (l : List (String × α)) (k k2 : String) (v : α)
    (h : k2 ≠ k) : lookupA (insertA l k v) k2 = lookupA l k2 := by
  induction l with
  | nil =>
    simp only [insertA, lookupA]
    rw [if_neg (fun hh => h hh.symm)]
  | cons kv t ih =>
    obtain ⟨k3, v3⟩ := kv
    by_cases h3 : k3 = k
    · subst h3
      simp only [insertA, if_pos, lookupA]
      rw [if_neg (fun hh => h hh.symm), if_neg (fun hh => h hh.symm)]
    · simp [insertA, h3, lookupA, ih]

theorem loweredKeys_insertA (queues : List (String × GameQueue)) (k : String)
    (v : GameQueue) (h : LoweredKeys queues) (hk : ∃ t, k = lowerStr t) :
    LoweredKeys (insertA queues k v) := by
  induction queues with
  | nil =>
    intro kv hkv
    simp only [insertA, List.mem_singleton] at hkv
    subst hkv
    exact hk
  | cons kv2 t ih =>
    obtain ⟨k2, v2⟩ := kv2
    by_cases he : k2 = k
    · intro kv hkv
      simp only [insertA, he, if_pos] at hkv
      rcases List.mem_cons.mp hkv with h1 | h1
      · subst h1; exact hk
      · exact h kv (List.mem_cons_of_mem _ h1)
    · intro kv hkv
      simp only [insertA, he, if_neg, ite_false] at hkv
      rcases List.mem_cons.mp hkv with h1 | h1
      · subst h1; exact h (k2, v2) (List.mem_cons_self _ _)
      · exact ih (fun kv3 hkv3 => h kv3 (List.mem_cons_of_mem _ hkv3)) kv h1

theorem check_and_lower_lowered (queues : List (String × GameQueue)) (g p : String)
    (h : LoweredKeys queues)
    (hne : QueueBot.check_and_lower_game_name_param queues g p ≠ "") :
    ∃ t, QueueBot.check_and_lower_game_name_param queues g p = lowerStr t := by
  revert hne
  unfold QueueBot.check_and_lower_game_name_param
  by_cases hg : g ≠ ""
  · simp only [if_pos hg]
    exact fun _ => ⟨g, rfl⟩
  · simp only [if_neg hg]
    split
    · exact fun _ => ⟨_, rfl⟩
    · split
      · rename_i k heq
        intro _
        have hmem : k ∈ (queues.filter
            (fun kv => (kv.2.find_player p).isSome)).map Prod.fst := by
          rw [heq]; exact List.mem_singleton.mpr rfl
        obtain ⟨kv, hkvf, hfst⟩ := List.mem_map.mp hmem
        have hkvq : kv ∈ queues := (List.mem_filter.mp hkvf).1
        obtain ⟨t, ht⟩ := h kv hkvq
        exact ⟨t, hfst ▸ ht⟩
      · exact fun hc => absurd rfl hc

theorem check_nonempty_true (queues : List (String × GameQueue)) (g : String)
    (q : GameQueue) (hq : lookupA queues g = some q) (hne : q.players ≠ []) :
    QueueBot.check_if_queue_exists_and_nonempty queues g = true := by
  unfold QueueBot.check_if_queue_exists_and_nonempty
  rw [hq]
  rcases hp : q.players with _ | ⟨a, t⟩
  · exact absurd hp hne
  · simp [hp]

theorem check_nonempty_of_none (queues : List (String × GameQueue)) (g : String)
    (h : lookupA queues g = none) :
    QueueBot.check_if_queue_exists_and_nonempty queues g = false := by
  unfold QueueBot.check_if_queue_exists_and_nonempty
  rw [h]

theorem check_nonempty_of_empty (queues : List (String × GameQueue)) (g : String)
    (q : GameQueue) (hq : lookupA queues g = some q) (hp : q.players = []) :
    QueueBot.check_if_queue_exists_and_nonempty queues g = false := by
  unfold QueueBot.check_if_queue_exists_and_nonempty
  rw [hq]
  simp [hp]

/-- Claim C1: the claim says the leave and end commands with an explicitly
supplied game name always complete with a response message, even when no
queue is registered for that name.  The source instead reads
self.queues[lower_game_name] without an existence check in both commands,
so that invocation aborts with an unhandled KeyError, modelled as none. -/
theorem C1_leave_end_lookup_abort :
    QueueBot.leave_queue (BotState.mk [] []) "alice" "chess" = none ∧
    QueueBot.end_queue (BotState.mk [] []) "alice" "chess" = none := by
  decide

/-- Claim C8: resolving the cohort size returns the stored size when one
exists and the caller supplies none (0 is the not-supplied sentinel),
leaving the store unchanged; the store is written exactly when the caller
supplies a size differing from the stored one, or when no size at all is
stored for the game. -/
theorem C8_check_player_cutoff_param_spec (d : List (String × Int)) (g : String)
    (c : Int) :
    (∀ db : Int, lookupA d g = some db → c = 0 →
      QueueBot.check_player_cutoff_param d g c = (db, d, false)) ∧
    ((QueueBot.check_player_cutoff_param d g c).2.2 = true ↔
      lookupA d g = none ∨ (c ≠ 0 ∧ lookupA d g ≠ some c)) ∧
    ((QueueBot.check_player_cutoff_param d g c).2.2 = false →
      (QueueBot.check_player_cutoff_param d g c).2.1 = d) := by
  unfold QueueBot.check_player_cutoff_param
  rcases hl : lookupA d g with _ | db
  · refine ⟨fun db hdb _ => by simp at hdb, by simp, by simp⟩
  · by_cases hc : c = 0
    · subst hc
      refine ⟨fun db2 hdb2 _ => ?_, by simp, by simp⟩
      obtain rfl : db = db2 := Option.some.inj hdb2
      simp
    · by_cases hdb : c = db
      · subst hdb
        refine ⟨fun db2 _ h0 => absurd h0 hc, by simp [hc], by simp⟩
      · refine ⟨fun db2 _ h0 => absurd h0 hc, ?_, by simp [hc, hdb]⟩
        constructor
        · intro _
          exact Or.inr ⟨hc, fun hsc => hdb (Option.some.inj hsc).symm⟩
        · intro _
          simp [hc, hdb]

/-- Witness for C8 at concrete inputs: a stored size of 4 for chess is
returned unchanged when the caller supplies none, and a differing supplied
size 7 causes a store write. -/
theorem C8_witness :
    QueueBot.check_player_cutoff_param [("chess", 4)] "chess" 0 =
      (4, [("chess", 4)], false) ∧
    (QueueBot.check_player_cutoff_param [("chess", 4)] "chess" 7).2.2 = true :=
  ⟨(C8_check_player_cutoff_param_spec [("chess", 4)] "chess" 0).1 4 (by decide) rfl,
   (C8_check_player_cutoff_param_spec [("chess", 4)] "chess" 7).2.1.mpr
     (Or.inr ⟨by decide, by decide⟩)⟩

theorem check_and_lower_of_supplied (queues : List (String × GameQueue))
    (g p : String) (hg : g ≠ "") :
    QueueBot.check_and_lower_game_name_param queues g p = lowerStr g := by
  unfold QueueBot.check_and_lower_game_name_param
  rw [if_pos hg]

/-- Claim C2 counterexample: chess has the single member alice; the end
command empties the queue, but the subsequent undo command for the same
game returns the no-queue response and the member sequence stays empty
instead of being restored to the pre-end sequence. -/
theorem C2_counterexample :
    ((QueueBot.end_queue
        (BotState.mk [("chess", GameQueue.mk "chess" 2 [Player.mk "alice" false] [] [])]
          [("chess", 2)]) "bob" "chess").bind fun r =>
      (QueueBot.undo_queue r.2 "bob" "chess").map fun r2 =>
        (r2.1, (lookupA r2.2.queues "chess").map GameQueue.players)) =
    some (QueueBot.NO_QUEUE_RESPONSE, some []) := by
  decide

/-- Claim C2 (amended): ending a queue does push a history snapshot at the
engine level, exactly as any other mutating operation (the emptied queue
holds the pre-end member sequence at the top of its history), but a
subsequent undo command for the same game does not restore that sequence:
the command layer demands a non-empty queue before invoking the engine
undo, so it answers with the no-queue response and leaves the emptied
queue unchanged. -/
theorem C2_end_snapshot_undo_blocked (s : BotState) (author author2 g : String)
    (q : GameQueue) (hg : g ≠ "") (hglow : lowerStr g ≠ "")
    (hq : lookupA s.queues (lowerStr g) = some q) :
    QueueBot.end_queue s author g =
      some ("The queue has been ended. Type !queue [game_name] to start a new queue.",
        { s with queues := insertA s.queues (lowerStr g) q.empty_queue }) ∧
    q.empty_queue.history = q.players :: q.history ∧
    QueueBot.undo_queue { s with queues := insertA s.queues (lowerStr g) q.empty_queue }
        author2 g =
      some (QueueBot.NO_QUEUE_RESPONSE,
        { s with queues := insertA s.queues (lowerStr g) q.empty_queue }) := by
  refine ⟨?_, rfl, ?_⟩
  · unfold QueueBot.end_queue
    rw [check_and_lower_of_supplied s.queues g author hg, if_neg hglow, hq]
  · unfold QueueBot.undo_queue
    rw [check_and_lower_of_supplied _ g author2 hg, if_neg hglow,
      check_nonempty_of_empty _ (lowerStr g) q.empty_queue
        (lookupA_insertA_self s.queues (lowerStr g) q.empty_queue) rfl]
    rfl

/-- Witness for C2 at a concrete queue with one member. -/
theorem C2_witness :
    QueueBot.end_queue
        (BotState.mk [("chess", GameQueue.mk "chess" 2 [Player.mk "alice" false] [] [])]
          [("chess", 2)]) "bob" "chess" =
      some ("The queue has been ended. Type !queue [game_name] to start a new queue.",
        { BotState.mk [("chess", GameQueue.mk "chess" 2 [Player.mk "alice" false] [] [])]
            [("chess", 2)] with
          queues := insertA
            [("chess", GameQueue.mk "chess" 2 [Player.mk "alice" false] [] [])]
            (lowerStr "chess")
            (GameQueue.mk "chess" 2 [Player.mk "alice" false] [] []).empty_queue }) ∧
    (GameQueue.mk "chess" 2 [Player.mk "alice" false] [] []).empty_queue.history =
      [Player.mk "alice" false] :: [] ∧
    QueueBot.undo_queue
        { BotState.mk [("chess", GameQueue.mk "chess" 2 [Player.mk "alice" false] [] [])]
            [("chess", 2)] with
          queues := insertA
            [("chess", GameQueue.mk "chess" 2 [Player.mk "alice" false] [] [])]
            (lowerStr "chess")
            (GameQueue.mk "chess" 2 [Player.mk "alice" false] [] []).empty_queue }
        "carol" "chess" =
      some (QueueBot.NO_QUEUE_RESPONSE,
        { BotState.mk [("chess", GameQueue.mk "chess" 2 [Player.mk "alice" false] [] [])]
            [("chess", 2)] with
          queues := insertA
            [("chess", GameQueue.mk "chess" 2 [Player.mk "alice" false] [] [])]
            (lowerStr "chess")
            (GameQueue.mk "chess" 2 [Player.mk "alice" false] [] []).empty_queue }) :=
  C2_end_snapshot_undo_blocked
    (BotState.mk [("chess", GameQueue.mk "chess" 2 [Player.mk "alice" false] [] [])]
      [("chess", 2)]) "bob" "carol" "chess"
    (GameQueue.mk "chess" 2 [Player.mk "alice" false] [] [])
    (by decide) (by decide) (by decide)

/-- Claim C3: for the rotate command, when the resolved game has no queue
in the registry or its queue has no players, the command returns the
no-queue response and performs no rotation, leaving the state unchanged;
the engine rotation update_queue runs exactly when the queue exists and is
non-empty. -/
theorem C3_next_game_guard (s : BotState) (author g lg : String) (q : GameQueue)
    (hlg0 : lg = QueueBot.check_and_lower_game_name_param s.queues g author)
    (hlg : lg ≠ "") :
    (QueueBot.check_if_queue_exists_and_nonempty s.queues lg = false →
      QueueBot.next_game_for_queue s author g = some (QueueBot.NO_QUEUE_RESPONSE, s)) ∧
    (lookupA s.queues lg = some q → q.players ≠ [] →
      QueueBot.next_game_for_queue s author g =
        some (q.update_queue.2,
          { s with queues := insertA s.queues lg q.update_queue.1 })) := by
  constructor
  · intro hch
    unfold QueueBot.next_game_for_queue
    rw [← hlg0, if_neg hlg, hch]
    rfl
  · intro hq hne
    unfold QueueBot.next_game_for_queue
    rw [← hlg0, if_neg hlg, check_nonempty_true s.queues lg q hq hne, hq]
    simp

/-- Witness for C3: with no registered queue the rotate command answers
with the no-queue response and changes nothing; with a one-member queue it
applies the engine rotation. -/
theorem C3_witness :
    QueueBot.next_game_for_queue (BotState.mk [] []) "alice" "chess" =
      some (QueueBot.NO_QUEUE_RESPONSE, BotState.mk [] []) ∧
    QueueBot.next_game_for_queue
        (BotState.mk [("chess", GameQueue.new "chess" 1 [Player.mk "alice" false])] [])
        "alice" "chess" =
      some ((GameQueue.new "chess" 1 [Player.mk "alice" false]).update_queue.2,
        { BotState.mk [("chess", GameQueue.new "chess" 1 [Player.mk "alice" false])] [] with
          queues := insertA [("chess", GameQueue.new "chess" 1 [Player.mk "alice" false])]
            "chess" (GameQueue.new "chess" 1 [Player.mk "alice" false]).update_queue.1 }) :=
  ⟨(C3_next_game_guard (BotState.mk [] []) "alice" "chess" "chess"
      (GameQueue.new "x" 1 []) (by decide) (by decide)).1 (by decide),
   (C3_next_game_guard
      (BotState.mk [("chess", GameQueue.new "chess" 1 [Player.mk "alice" false])] [])
      "alice" "chess" "chess" (GameQueue.new "chess" 1 [Player.mk "alice" false])
      (by decide) (by decide)).2 (by decide) (by decide)⟩

theorem GameQueue.add_player_cutoff (q : GameQueue) (p : Player) :
    (q.add_player p).1.player_cutoff = q.player_cutoff := by
  unfold GameQueue.add_player
  split <;> rfl

theorem lookup_insert_cases {α : Type} (l : List (String × α)) (k0 k : String)
    (v q2 : α) (hk : lookupA (insertA l k0 v) k = some q2) :
    (k = k0 ∧ q2 = v) ∨ (k ≠ k0 ∧ lookupA l k = some q2) := by
  by_cases he : k = k0
  · subst he
    rw [lookupA_insertA_self] at hk
    exact Or.inl ⟨rfl, (Option.some.inj hk).symm⟩
  · refine Or.inr ⟨he, ?_⟩
    rw [lookupA_insertA_ne l k0 k v he] at hk
    exact hk

/-- Claim C4 counterexample: the claim says every queue is constructed with
a cutoff of at least 1, but joining a fresh game with a supplied cutoff of
-3 registers a GameQueue whose player_cutoff is -3: the source guard only
rejects the falsy value 0. -/
theorem C4_counterexample :
    ((QueueBot.start_queue (BotState.mk [] []) "alice" "chess" (-3)).map
      (fun r => (lookupA r.2.queues "chess").map GameQueue.player_cutoff)) =
    some (some (-3)) := by
  decide

/-- Claim C4 (amended): every GameQueue freshly constructed by start_queue
or switch_queue receives a nonzero cutoff, not necessarily one that is at
least 1: the guard uses Python truthiness, so 0 is rejected but negative
integers pass.  Formally, any entry of the resulting registry either keeps
the cutoff of the entry the starting registry had at that key, or is a
fresh construction whose cutoff is nonzero. -/
theorem C4_constructed_cutoff_nonzero (s : BotState) (author g : String) (c : Int)
    (qs2 : List (String × GameQueue))
    (h : ((QueueBot.start_queue s author g c).map fun r => r.2.queues) = some qs2 ∨
         ((QueueBot.switch_queue s author g c).map fun r => r.2.queues) = some qs2)
    (k : String) (q2 : GameQueue) (hk : lookupA qs2 k = some q2) :
    (∃ q, lookupA s.queues k = some q ∧ q2.player_cutoff = q.player_cutoff) ∨
    q2.player_cutoff ≠ 0 := by
  rcases h with hs | hs
  · unfold QueueBot.start_queue at hs
    dsimp only at hs
    split at hs
    · simp only [Option.map_some'] at hs
      obtain rfl : s.queues = qs2 := Option.some.inj hs
      exact Or.inl ⟨q2, hk, rfl⟩
    · split at hs
      · split at hs
        · simp at hs
        · rename_i q hq
          simp only [Option.map_some'] at hs
          obtain rfl : insertA s.queues _ _ = qs2 := Option.some.inj hs
          rcases lookup_insert_cases _ _ _ _ _ hk with ⟨heq, rfl⟩ | ⟨_, hk2⟩
          · subst heq
            exact Or.inl ⟨q, hq, GameQueue.add_player_cutoff q _⟩
          · exact Or.inl ⟨q2, hk2, rfl⟩
      · split at hs
        · simp only [Option.map_some'] at hs
          obtain rfl : s.queues = qs2 := Option.some.inj hs
          exact Or.inl ⟨q2, hk, rfl⟩
        · rename_i hpc
          simp only [Option.map_some'] at hs
          obtain rfl : insertA s.queues _ _ = qs2 := Option.some.inj hs
          rcases lookup_insert_cases _ _ _ _ _ hk with ⟨_, rfl⟩ | ⟨_, hk2⟩
          · refine Or.inr ?_
            rw [GameQueue.add_player_cutoff]
            exact hpc
          · exact Or.inl ⟨q2, hk2, rfl⟩
  · unfold QueueBot.switch_queue at hs
    dsimp only at hs
    split at hs
    · simp only [Option.map_some'] at hs
      obtain rfl : s.queues = qs2 := Option.some.inj hs
      exact Or.inl ⟨q2, hk, rfl⟩
    · split at hs
      · simp only [Option.map_some'] at hs
        obtain rfl : s.queues = qs2 := Option.some.inj hs
        exact Or.inl ⟨q2, hk, rfl⟩
      · split at hs
        · simp only [Option.map_some'] at hs
          obtain rfl : s.queues = qs2 := Option.some.inj hs
          exact Or.inl ⟨q2, hk, rfl⟩
        · rename_i hpc
          split at hs
          · simp at hs
          · rename_i qA hqA
            simp only [Option.map_some'] at hs
            obtain rfl : insertA (insertA s.queues _ _) _ _ = qs2 := Option.some.inj hs
            rcases lookup_insert_cases _ _ _ _ _ hk with ⟨_, rfl⟩ | ⟨_, hk2⟩
            · exact Or.inr hpc
            · rcases lookup_insert_cases _ _ _ _ _ hk2 with ⟨heq, rfl⟩ | ⟨_, hk3⟩
              · subst heq
                exact Or.inl ⟨qA, hqA, rfl⟩
              · exact Or.inl ⟨q2, hk3, rfl⟩

/-- Witness for C4: the queue registered by the counterexample run has the
nonzero (negative) cutoff -3 and was not present beforehand. -/
theorem C4_witness :
    (∃ q, lookupA ([] : List (String × GameQueue)) "chess" = some q ∧
      (GameQueue.mk "chess" (-3) [Player.mk "alice" false] [] [[]]).player_cutoff =
        q.player_cutoff) ∨
    (GameQueue.mk "chess" (-3) [Player.mk "alice" false] [] [[]]).player_cutoff ≠ 0 :=
  C4_constructed_cutoff_nonzero (BotState.mk [] []) "alice" "chess" (-3)
    [("chess", GameQueue.mk "chess" (-3) [Player.mk "alice" false] [] [[]])]
    (Or.inl (by decide)) "chess"
    (GameQueue.mk "chess" (-3) [Player.mk "alice" false] [] [[]]) (by decide)

/-- Claim C5 counterexample: the claim, as stated, covers every player
name already present in a queue, but a name can be present only through
the delaying holding set while the member sequence is empty.  In that
reachable state (start a queue, then delay its sole player) the very
find_player lookup the command uses for its duplicate check still finds
the name, yet the add command answers with the no-queue response rather
than the distinguishable already-present indication. -/
theorem C5_counterexample :
    ((GameQueue.mk "chess" 2 [] [Player.mk "dave" true] []).find_player "dave").isSome
      = true ∧
    QueueBot.add_player
        (BotState.mk [("chess", GameQueue.mk "chess" 2 [] [Player.mk "dave" true] [])] [])
        "bob" "dave" "chess" =
      some (QueueBot.NO_QUEUE_RESPONSE,
        BotState.mk [("chess", GameQueue.mk "chess" 2 [] [Player.mk "dave" true] [])] []) := by
  decide

/-- Claim C5 (amended): for a queue whose member sequence is non-empty,
the add command for a player name already present in that queue
(case-insensitive, via the engine find_player) returns the
distinguishable already-present response and leaves the whole bot state,
in particular the member sequence, unchanged: the engine add_player is
never reached.  When the member sequence is empty, a name still present
in the delaying holding set instead receives the no-queue response, as
the counterexample shows. -/
theorem C5_add_duplicate_no_mutation (s : BotState) (author name g lg : String)
    (q : GameQueue)
    (hlg0 : lg = QueueBot.check_and_lower_game_name_param s.queues g author)
    (hlg : lg ≠ "")
    (hq : lookupA s.queues lg = some q)
    (hne : q.players ≠ [])
    (hfound : (q.find_player name).isSome = true) :
    QueueBot.add_player s author name g =
      some (name ++ " is already a member of the queue for " ++ lg ++ ".", s) := by
  unfold QueueBot.add_player
  rw [← hlg0, if_neg hlg, check_nonempty_true s.queues lg q hq hne, hq]
  simp [hfound]

/-- Witness for C5: adding ALICE when alice is queued for chess answers
with the already-present response and does not change the state. -/
theorem C5_witness :
    QueueBot.add_player
        (BotState.mk [("chess", GameQueue.mk "chess" 2 [Player.mk "alice" false] [] [])] [])
        "bob" "ALICE" "chess" =
      some ("ALICE is already a member of the queue for chess.",
        BotState.mk [("chess", GameQueue.mk "chess" 2 [Player.mk "alice" false] [] [])] []) :=
  C5_add_duplicate_no_mutation
    (BotState.mk [("chess", GameQueue.mk "chess" 2 [Player.mk "alice" false] [] [])] [])
    "bob" "ALICE" "chess" "chess"
    (GameQueue.mk "chess" 2 [Player.mk "alice" false] [] [])
    (by decide) (by decide) (by decide) (by decide) (by decide)

/-- Claim C6: for the rejoin command against an existing non-empty queue,
a requester found in neither the members nor the holding set gets the
not-found response with no mutation; one found with a false delaying flag
gets the not-delaying response with no mutation; and only a found,
delaying requester leads to the engine rejoin mutation. -/
theorem C6_rejoin_cases (s : BotState) (author g lg : String) (q : GameQueue)
    (hlg0 : lg = QueueBot.check_and_lower_game_name_param s.queues g author)
    (hlg : lg ≠ "")
    (hq : lookupA s.queues lg = some q)
    (hne : q.players ≠ []) :
    (q.find_player author = none →
      QueueBot.rejoin_player s author g =
        some (author ++ " is not a player in the queue for " ++ lg ++ ".", s)) ∧
    (∀ p : Player, q.find_player author = some p → p.delaying = false →
      QueueBot.rejoin_player s author g =
        some (author ++ " was not delaying games.", s)) ∧
    (∀ p : Player, q.find_player author = some p → p.delaying = true →
      QueueBot.rejoin_player s author g =
        some (author ++ " is no longer delaying their games.\n\n" ++
            (GameQueue.rejoin_player q p).2,
          { s with queues := insertA s.queues lg (GameQueue.rejoin_player q p).1 })) := by
  refine ⟨?_, ?_, ?_⟩
  · intro hf
    unfold QueueBot.rejoin_player
    rw [← hlg0, if_neg hlg, check_nonempty_true s.queues lg q hq hne, hq]
    simp [hf]
  · intro p hf hd
    unfold QueueBot.rejoin_player
    rw [← hlg0, if_neg hlg, check_nonempty_true s.queues lg q hq hne, hq]
    simp [hf, hd]
  · intro p hf hd
    unfold QueueBot.rejoin_player
    rw [← hlg0, if_neg hlg, check_nonempty_true s.queues lg q hq hne, hq]
    simp [hf, hd]

/-- Witness for C6, covering all three cases at concrete queues: carol is
in neither set, alice is a member who never delayed, and dave sits in the
delaying holding set. -/
theorem C6_witness :
    QueueBot.rejoin_player
        (BotState.mk [("chess",
          GameQueue.mk "chess" 2 [Player.mk "alice" false] [Player.mk "dave" true] [])] [])
        "carol" "chess" =
      some ("carol is not a player in the queue for chess.",
        BotState.mk [("chess",
          GameQueue.mk "chess" 2 [Player.mk "alice" false] [Player.mk "dave" true] [])] []) ∧
    QueueBot.rejoin_player
        (BotState.mk [("chess",
          GameQueue.mk "chess" 2 [Player.mk "alice" false] [Player.mk "dave" true] [])] [])
        "alice" "chess" =
      some ("alice was not delaying games.",
        BotState.mk [("chess",
          GameQueue.mk "chess" 2 [Player.mk "alice" false] [Player.mk "dave" true] [])] []) ∧
    QueueBot.rejoin_player
        (BotState.mk [("chess",
          GameQueue.mk "chess" 2 [Player.mk "alice" false] [Player.mk "dave" true] [])] [])
        "dave" "chess" =
      some ("dave is no longer delaying their games.\n\n" ++
          (GameQueue.rejoin_player
            (GameQueue.mk "chess" 2 [Player.mk "alice" false] [Player.mk "dave" true] [])
            (Player.mk "dave" true)).2,
        { BotState.mk [("chess",
            GameQueue.mk "chess" 2 [Player.mk "alice" false] [Player.mk "dave" true] [])] [] with
          queues := insertA
            [("chess",
              GameQueue.mk "chess" 2 [Player.mk "alice" false] [Player.mk "dave" true] [])]
            "chess"
            (GameQueue.rejoin_player
              (GameQueue.mk "chess" 2 [Player.mk "alice" false] [Player.mk "dave" true] [])
              (Player.mk "dave" true)).1 }) :=
  ⟨(C6_rejoin_cases
      (BotState.mk [("chess",
        GameQueue.mk "chess" 2 [Player.mk "alice" false] [Player.mk "dave" true] [])] [])
      "carol" "chess" "chess"
      (GameQueue.mk "chess" 2 [Player.mk "alice" false] [Player.mk "dave" true] [])
      (by decide) (by decide) (by decide) (by decide)).1 (by decide),
   (C6_rejoin_cases
      (BotState.mk [("chess",
        GameQueue.mk "chess" 2 [Player.mk "alice" false] [Player.mk "dave" true] [])] [])
      "alice" "chess" "chess"
      (GameQueue.mk "chess" 2 [Player.mk "alice" false] [Player.mk "dave" true] [])
      (by decide) (by decide) (by decide) (by decide)).2.1
      (Player.mk "alice" false) (by decide) rfl,
   (C6_rejoin_cases
      (BotState.mk [("chess",
        GameQueue.mk "chess" 2 [Player.mk "alice" false] [Player.mk "dave" true] [])] [])
      "dave" "chess" "chess"
      (GameQueue.mk "chess" 2 [Player.mk "alice" false] [Player.mk "dave" true] [])
      (by decide) (by decide) (by decide) (by decide)).2.2
      (Player.mk "dave" true) (by decide) rfl⟩

/-- Claim C7: a successful switch from the current game cur to a distinct
target game g registers under the lowered target name a queue constructed
with exactly the member sequence the current queue held immediately before
the switch, in the same order, and the current queue is emptied. -/
theorem C7_switch_moves_members (s : BotState) (author g cur : String)
    (c pc : Int) (d2 : List (String × Int)) (qA : GameQueue)
    (hcur0 : cur = QueueBot.check_and_lower_game_name_param s.queues "" author)
    (hcur : cur ≠ "")
    (hlg : lowerStr g ≠ "")
    (hne : cur ≠ lowerStr g)
    (hpc0 : pc = (QueueBot.check_player_cutoff_param s.game_dict (lowerStr g) c).1)
    (hd0 : d2 = (QueueBot.check_player_cutoff_param s.game_dict (lowerStr g) c).2.1)
    (hpc : pc ≠ 0)
    (hqA : lookupA s.queues cur = some qA) :
    QueueBot.switch_queue s author g c =
      some ("Queue has been created for " ++ lowerStr g ++ ".\n",
        BotState.mk (insertA (insertA s.queues cur qA.empty_queue) (lowerStr g)
          (GameQueue.new (lowerStr g) pc qA.players)) d2) ∧
    lookupA (insertA (insertA s.queues cur qA.empty_queue) (lowerStr g)
        (GameQueue.new (lowerStr g) pc qA.players)) (lowerStr g) =
      some (GameQueue.new (lowerStr g) pc qA.players) ∧
    (GameQueue.new (lowerStr g) pc qA.players).players = qA.players ∧
    lookupA (insertA (insertA s.queues cur qA.empty_queue) (lowerStr g)
        (GameQueue.new (lowerStr g) pc qA.players)) cur =
      some qA.empty_queue ∧
    qA.empty_queue.players = [] := by
  refine ⟨?_, lookupA_insertA_self _ _ _, rfl, ?_, rfl⟩
  · unfold QueueBot.switch_queue
    dsimp only
    rw [← hcur0, if_neg hlg, if_neg hcur, ← hpc0, ← hd0, if_neg hpc, hqA]
  · rw [lookupA_insertA_ne _ _ _ _ hne]
    exact lookupA_insertA_self _ _ _

/-- Witness for C7: alice switches the singleton chess queue holding alice
and bob over to GO with cutoff 4. -/
theorem C7_witness :
    QueueBot.switch_queue
        (BotState.mk [("chess",
          GameQueue.mk "chess" 2 [Player.mk "alice" false, Player.mk "bob" false] [] [])] [])
        "alice" "GO" 4 =
      some ("Queue has been created for " ++ lowerStr "GO" ++ ".\n",
        BotState.mk (insertA (insertA
            [("chess",
              GameQueue.mk "chess" 2 [Player.mk "alice" false, Player.mk "bob" false] [] [])]
            "chess"
            (GameQueue.mk "chess" 2 [Player.mk "alice" false, Player.mk "bob" false] [] []).empty_queue)
          (lowerStr "GO")
          (GameQueue.new (lowerStr "GO") 4
            (GameQueue.mk "chess" 2 [Player.mk "alice" false, Player.mk "bob" false] [] []).players))
          [("go", 4)]) ∧
    lookupA (insertA (insertA
        [("chess",
          GameQueue.mk "chess" 2 [Player.mk "alice" false, Player.mk "bob" false] [] [])]
        "chess"
        (GameQueue.mk "chess" 2 [Player.mk "alice" false, Player.mk "bob" false] [] []).empty_queue)
      (lowerStr "GO")
      (GameQueue.new (lowerStr "GO") 4
        (GameQueue.mk "chess" 2 [Player.mk "alice" false, Player.mk "bob" false] [] []).players))
      (lowerStr "GO") =
      some (GameQueue.new (lowerStr "GO") 4
        (GameQueue.mk "chess" 2 [Player.mk "alice" false, Player.mk "bob" false] [] []).players) ∧
    (GameQueue.new (lowerStr "GO") 4
      (GameQueue.mk "chess" 2 [Player.mk "alice" false, Player.mk "bob" false] [] []).players).players =
      (GameQueue.mk "chess" 2 [Player.mk "alice" false, Player.mk "bob" false] [] []).players ∧
    lookupA (insertA (insertA
        [("chess",
          GameQueue.mk "chess" 2 [Player.mk "alice" false, Player.mk "bob" false] [] [])]
        "chess"
        (GameQueue.mk "chess" 2 [Player.mk "alice" false, Player.mk "bob" false] [] []).empty_queue)
      (lowerStr "GO")
      (GameQueue.new (lowerStr "GO") 4
        (GameQueue.mk "chess" 2 [Player.mk "alice" false, Player.mk "bob" false] [] []).players))
      "chess" =
      some (GameQueue.mk "chess" 2
        [Player.mk "alice" false, Player.mk "bob" false] [] []).empty_queue ∧
    (GameQueue.mk "chess" 2
      [Player.mk "alice" false, Player.mk "bob" false] [] []).empty_queue.players = [] :=
  C7_switch_moves_members
    (BotState.mk [("chess",
      GameQueue.mk "chess" 2 [Player.mk "alice" false, Player.mk "bob" false] [] [])] [])
    "alice" "GO" "chess" 4 4 [("go", 4)]
    (GameQueue.mk "chess" 2 [Player.mk "alice" false, Player.mk "bob" false] [] [])
    (by decide) (by decide) (by decide) (by decide) (by decide) (by decide)
    (by decide) (by decide)

/-- Claim C9: when a queue is registered for the resolved game but holds
zero players, the join command does not add the requester to that existing
instance; it re-resolves the cutoff and registers a brand-new GameQueue
under the name, whose state is exactly the fresh construction holding only
the requester and the single snapshot pushed by the add, discarding the
prior instance together with its undo history. -/
theorem C9_start_discards_empty_queue (s : BotState) (author g lg : String)
    (c pc : Int) (d2 : List (String × Int)) (q : GameQueue)
    (hlg0 : lg = QueueBot.check_and_lower_game_name_param s.queues g "")
    (hlg : lg ≠ "")
    (hq : lookupA s.queues lg = some q)
    (hempty : q.players = [])
    (hpc0 : pc = (QueueBot.check_player_cutoff_param s.game_dict lg c).1)
    (hd0 : d2 = (QueueBot.check_player_cutoff_param s.game_dict lg c).2.1)
    (hpc : pc ≠ 0) :
    QueueBot.start_queue s author g c =
      some ("Queue has been created for " ++ lg ++ ".\n" ++
          ((GameQueue.new lg pc []).add_player (Player.mk author false)).2,
        BotState.mk (insertA s.queues lg
          ((GameQueue.new lg pc []).add_player (Player.mk author false)).1) d2) ∧
    ((GameQueue.new lg pc []).add_player (Player.mk author false)).1 =
      GameQueue.mk lg pc [Player.mk author false] [] [[]] := by
  refine ⟨?_, rfl⟩
  unfold QueueBot.start_queue
  rw [← hlg0, if_neg hlg, check_nonempty_of_empty s.queues lg q hq hempty]
  dsimp only
  rw [← hpc0, ← hd0, if_neg hpc]
  simp

/-- Witness for C9: chess has a registered queue with no players but a
non-trivial history; alice joins and gets a brand-new queue. -/
theorem C9_witness :
    QueueBot.start_queue
        (BotState.mk [("chess", GameQueue.mk "chess" 2 [] [] [[Player.mk "old" false]])]
          [("chess", 2)]) "alice" "Chess" 0 =
      some ("Queue has been created for " ++ "chess" ++ ".\n" ++
          ((GameQueue.new "chess" 2 []).add_player (Player.mk "alice" false)).2,
        BotState.mk (insertA
          [("chess", GameQueue.mk "chess" 2 [] [] [[Player.mk "old" false]])] "chess"
          ((GameQueue.new "chess" 2 []).add_player (Player.mk "alice" false)).1)
          [("chess", 2)]) ∧
    ((GameQueue.new "chess" 2 []).add_player (Player.mk "alice" false)).1 =
      GameQueue.mk "chess" 2 [Player.mk "alice" false] [] [[]] :=
  C9_start_discards_empty_queue
    (BotState.mk [("chess", GameQueue.mk "chess" 2 [] [] [[Player.mk "old" false]])]
      [("chess", 2)]) "alice" "Chess" "chess" 0 2 [("chess", 2)]
    (GameQueue.mk "chess" 2 [] [] [[Player.mk "old" false]])
    (by decide) (by decide) (by decide) (by decide) (by decide) (by decide) (by decide)

theorem loweredKeys_update (s : BotState) (gn p : String) (v : GameQueue)
    (hinv : LoweredKeys s.queues)
    (hlg : QueueBot.check_and_lower_game_name_param s.queues gn p ≠ "") :
    LoweredKeys (insertA s.queues
      (QueueBot.check_and_lower_game_name_param s.queues gn p) v) :=
  loweredKeys_insertA _ _ _ hinv (check_and_lower_lowered _ _ _ hinv hlg)

/-- Claim C10: every key inserted into the queue registry is a lowercased
game name (keys stay in the image of lowerStr under every command), and
every command lowers a supplied game name before any registry lookup, so
queue identity is case-insensitive with respect to game names across all
operations. -/
theorem C10_registry_keys_lowercased (s : BotState) (author : String) (cmd : Cmd)
    (resp : String) (s2 : BotState)
    (hinv : LoweredKeys s.queues)
    (h : runCmd s author cmd = some (resp, s2)) :
    LoweredKeys s2.queues ∧
    (∀ g p : String, g ≠ "" →
      QueueBot.check_and_lower_game_name_param s.queues g p = lowerStr g) := by
  refine ⟨?_, fun g p hg => check_and_lower_of_supplied s.queues g p hg⟩
  cases cmd with
  | start g c =>
    unfold runCmd QueueBot.start_queue at h
    dsimp only at h
    split at h
    · simp only [Option.some.injEq, Prod.mk.injEq] at h
      obtain ⟨-, rfl⟩ := h
      exact hinv
    · rename_i hlg
      split at h
      · split at h
        · exact Option.noConfusion h
        · simp only [Option.some.injEq, Prod.mk.injEq] at h
          obtain ⟨-, rfl⟩ := h
          exact loweredKeys_update s g "" _ hinv hlg
      · split at h
        · simp only [Option.some.injEq, Prod.mk.injEq] at h
          obtain ⟨-, rfl⟩ := h
          exact hinv
        · simp only [Option.some.injEq, Prod.mk.injEq] at h
          obtain ⟨-, rfl⟩ := h
          exact loweredKeys_update s g "" _ hinv hlg
  | leave g =>
    unfold runCmd QueueBot.leave_queue at h
    dsimp only at h
    split at h
    · simp only [Option.some.injEq, Prod.mk.injEq] at h
      obtain ⟨-, rfl⟩ := h
      exact hinv
    · rename_i hlg
      split at h
      · exact Option.noConfusion h
      · split at h
        · simp only [Option.some.injEq, Prod.mk.injEq] at h
          obtain ⟨-, rfl⟩ := h
          exact loweredKeys_update s g author _ hinv hlg
        · simp only [Option.some.injEq, Prod.mk.injEq] at h
          obtain ⟨-, rfl⟩ := h
          exact hinv
  | next g =>
    unfold runCmd QueueBot.next_game_for_queue at h
    dsimp only at h
    split at h
    · simp only [Option.some.injEq, Prod.mk.injEq] at h
      obtain ⟨-, rfl⟩ := h
      exact hinv
    · rename_i hlg
      split at h
      · simp only [Option.some.injEq, Prod.mk.injEq] at h
        obtain ⟨-, rfl⟩ := h
        exact hinv
      · split at h
        · exact Option.noConfusion h
        · simp only [Option.some.injEq, Prod.mk.injEq] at h
          obtain ⟨-, rfl⟩ := h
          exact loweredKeys_update s g author _ hinv hlg
  | status g =>
    unfold runCmd QueueBot.status_queue at h
    dsimp only at h
    split at h
    · simp only [Option.some.injEq, Prod.mk.injEq] at h
      obtain ⟨-, rfl⟩ := h
      exact hinv
    · split at h
      · simp only [Option.some.injEq, Prod.mk.injEq] at h
        obtain ⟨-, rfl⟩ := h
        exact hinv
      · split at h
        · exact Option.noConfusion h
        · simp only [Option.some.injEq, Prod.mk.injEq] at h
          obtain ⟨-, rfl⟩ := h
          exact hinv
  | wait g =>
    unfold runCmd QueueBot.wait_queue at h
    dsimp only at h
    split at h
    · simp only [Option.some.injEq, Prod.mk.injEq] at h
      obtain ⟨-, rfl⟩ := h
      exact hinv
    · split at h
      · simp only [Option.some.injEq, Prod.mk.injEq] at h
        obtain ⟨-, rfl⟩ := h
        exact hinv
      · split at h
        · exact Option.noConfusion h
        · simp only [Option.some.injEq, Prod.mk.injEq] at h
          obtain ⟨-, rfl⟩ := h
          exact hinv
  | add p g =>
    unfold runCmd QueueBot.add_player at h
    dsimp only at h
    split at h
    · simp only [Option.some.injEq, Prod.mk.injEq] at h
      obtain ⟨-, rfl⟩ := h
      exact hinv
    · rename_i hlg
      split at h
      · simp only [Option.some.injEq, Prod.mk.injEq] at h
        obtain ⟨-, rfl⟩ := h
        exact hinv
      · split at h
        · exact Option.noConfusion h
        · split at h
          · simp only [Option.some.injEq, Prod.mk.injEq] at h
            obtain ⟨-, rfl⟩ := h
            exact hinv
          · simp only [Option.some.injEq, Prod.mk.injEq] at h
            obtain ⟨-, rfl⟩ := h
            exact loweredKeys_update s g author _ hinv hlg
  | kick p g =>
    unfold runCmd QueueBot.kick_player at h
    dsimp only at h
    split at h
    · simp only [Option.some.injEq, Prod.mk.injEq] at h
      obtain ⟨-, rfl⟩ := h
      exact hinv
    · rename_i hlg
      split at h
      · simp only [Option.some.injEq, Prod.mk.injEq] at h
        obtain ⟨-, rfl⟩ := h
        exact hinv
      · split at h
        · exact Option.noConfusion h
        · split at h
          · simp only [Option.some.injEq, Prod.mk.injEq] at h
            obtain ⟨-, rfl⟩ := h
            exact loweredKeys_update s g author _ hinv hlg
          · simp only [Option.some.injEq, Prod.mk.injEq] at h
            obtain ⟨-, rfl⟩ := h
            exact hinv
  | delay g p =>
    unfold runCmd QueueBot.delay_player at h
    dsimp only at h
    by_cases hp : p = ""
    · rw [if_pos hp] at h
      split at h
      · simp only [Option.some.injEq, Prod.mk.injEq] at h
        obtain ⟨-, rfl⟩ := h
        exact hinv
      · rename_i hlg
        split at h
        · simp only [Option.some.injEq, Prod.mk.injEq] at h
          obtain ⟨-, rfl⟩ := h
          exact hinv
        · split at h
          · exact Option.noConfusion h
          · split at h
            · simp only [Option.some.injEq, Prod.mk.injEq] at h
              obtain ⟨-, rfl⟩ := h
              exact loweredKeys_update s g author _ hinv hlg
            · simp only [Option.some.injEq, Prod.mk.injEq] at h
              obtain ⟨-, rfl⟩ := h
              exact hinv
    · rw [if_neg hp] at h
      split at h
      · simp only [Option.some.injEq, Prod.mk.injEq] at h
        obtain ⟨-, rfl⟩ := h
        exact hinv
      · rename_i hlg
        split at h
        · simp only [Option.some.injEq, Prod.mk.injEq] at h
          obtain ⟨-, rfl⟩ := h
          exact hinv
        · split at h
          · exact Option.noConfusion h
          · split at h
            · simp only [Option.some.injEq, Prod.mk.injEq] at h
              obtain ⟨-, rfl⟩ := h
              exact loweredKeys_update s g p _ hinv hlg
            · simp only [Option.some.injEq, Prod.mk.injEq] at h
              obtain ⟨-, rfl⟩ := h
              exact hinv
  | rejoin g =>
    unfold runCmd QueueBot.rejoin_player at h
    dsimp only at h
    split at h
    · simp only [Option.some.injEq, Prod.mk.injEq] at h
      obtain ⟨-, rfl⟩ := h
      exact hinv
    · rename_i hlg
      split at h
      · simp only [Option.some.injEq, Prod.mk.injEq] at h
        obtain ⟨-, rfl⟩ := h
        exact hinv
      · split at h
        · exact Option.noConfusion h
        · split at h
          · split at h
            · simp only [Option.some.injEq, Prod.mk.injEq] at h
              obtain ⟨-, rfl⟩ := h
              exact loweredKeys_update s g author _ hinv hlg
            · simp only [Option.some.injEq, Prod.mk.injEq] at h
              obtain ⟨-, rfl⟩ := h
              exact hinv
          · simp only [Option.some.injEq, Prod.mk.injEq] at h
            obtain ⟨-, rfl⟩ := h
            exact hinv
  | undo g =>
    unfold runCmd QueueBot.undo_queue at h
    dsimp only at h
    split at h
    · simp only [Option.some.injEq, Prod.mk.injEq] at h
      obtain ⟨-, rfl⟩ := h
      exact hinv
    · rename_i hlg
      split at h
      · simp only [Option.some.injEq, Prod.mk.injEq] at h
        obtain ⟨-, rfl⟩ := h
        exact hinv
      · split at h
        · exact Option.noConfusion h
        · simp only [Option.some.injEq, Prod.mk.injEq] at h
          obtain ⟨-, rfl⟩ := h
          exact loweredKeys_update s g author _ hinv hlg
  | switch g c =>
    unfold runCmd QueueBot.switch_queue at h
    dsimp only at h
    split at h
    · simp only [Option.some.injEq, Prod.mk.injEq] at h
      obtain ⟨-, rfl⟩ := h
      exact hinv
    · split at h
      · simp only [Option.some.injEq, Prod.mk.injEq] at h
        obtain ⟨-, rfl⟩ := h
        exact hinv
      · rename_i hcur
        split at h
        · simp only [Option.some.injEq, Prod.mk.injEq] at h
          obtain ⟨-, rfl⟩ := h
          exact hinv
        · split at h
          · exact Option.noConfusion h
          · simp only [Option.some.injEq, Prod.mk.injEq] at h
            obtain ⟨-, rfl⟩ := h
            exact loweredKeys_insertA _ _ _
              (loweredKeys_insertA _ _ _ hinv
                (check_and_lower_lowered _ _ _ hinv hcur))
              ⟨g, rfl⟩
  | stop g =>
    unfold runCmd QueueBot.end_queue at h
    dsimp only at h
    split at h
    · simp only [Option.some.injEq, Prod.mk.injEq] at h
      obtain ⟨-, rfl⟩ := h
      exact hinv
    · rename_i hlg
      split at h
      · exact Option.noConfusion h
      · simp only [Option.some.injEq, Prod.mk.injEq] at h
        obtain ⟨-, rfl⟩ := h
        exact loweredKeys_update s g author _ hinv hlg

/-- Witness for C10: ending the chess queue via the end command with the
mixed-case name CHESS keeps every registry key a lowercased game name. -/
theorem C10_witness :
    LoweredKeys (insertA
      [("chess", GameQueue.mk "chess" 2 [Player.mk "alice" false] [] [])]
      (lowerStr "CHESS")
      (GameQueue.mk "chess" 2 [Player.mk "alice" false] [] []).empty_queue) :=
  (C10_registry_keys_lowercased
    (BotState.mk [("chess", GameQueue.mk "chess" 2 [Player.mk "alice" false] [] [])] [])
    "bob" (Cmd.stop "CHESS")
    "The queue has been ended. Type !queue [game_name] to start a new queue."
    (BotState.mk (insertA
      [("chess", GameQueue.mk "chess" 2 [Player.mk "alice" false] [] [])]
      (lowerStr "CHESS")
      (GameQueue.mk "chess" 2 [Player.mk "alice" false] [] []).empty_queue) [])
    (by
      intro kv hkv
      rcases List.mem_singleton.mp hkv with rfl
      exact ⟨"chess", by decide⟩)
    (by decide)).1

end QueueBotModel
